import Mathlib

/-!
Shallow embedding of the RasgoQL transform-chain rendering engine
(`rasgoql/primitives/rendering.py`, `rasgoql/primitives/transforms.py`,
`rasgoql/utils/sql.py`, `rasgoql/data/snowflake.py`) and proofs about it.

Python strings are modelled as `List Char`; Python functions that can raise
are modelled with `Except PyExc`.  Definitions follow the source line by
line; where a Python library call is involved (`str.strip`, `str.upper`,
`re.sub`, `re.match`, `str.split`) the definition embeds its behaviour on
the character sets actually reachable here (ASCII identifiers and SQL
text).
-/

set_option maxHeartbeats 1000000

namespace RasgoQL

/-- Python strings, modelled as lists of characters. -/
abbrev PyStr := List Char

/-- Convert a Lean string literal into the model's string type. -/
def pyStr (s : String) : PyStr := s.data

/-- The Python exceptions that the embedded code can raise.
`valueError`, `parameterException`, `sqlWarning`, `transformRenderingError`
carry their message; `keyError` carries the missing key;
`indexError` is `list index out of range`; `renderError` stands for an
arbitrary exception escaping the Jinja renderer or a helper. -/
inductive PyExc where
  | indexError : PyExc
  | keyError (k : PyStr) : PyExc
  | valueError (msg : PyStr) : PyExc
  | parameterException (msg : PyStr) : PyExc
  | sqlWarning (msg : PyStr) : PyExc
  | transformRenderingError (msg : PyStr) : PyExc
  | renderError (msg : PyStr) : PyExc
  deriving DecidableEq, Repr

/-- `str(e)` for the modelled exceptions: the message the exception carries
(used when `TransformRenderingError(e)` wraps an original exception `e`). -/
def excMessage : PyExc → PyStr
  | .indexError => pyStr "list index out of range"
  | .keyError k => k
  | .valueError m => m
  | .parameterException m => m
  | .sqlWarning m => m
  | .transformRenderingError m => m
  | .renderError m => m

/-! ## Character-level helpers (Python `str` methods, ASCII fragment) -/

/-- The ASCII whitespace characters recognised by Python's `str.strip` and
by the regex class `\s`. -/
def isPySpace (c : Char) : Bool :=
  c == ' ' || c == '\t' || c == '\n' || c == '\x0d' || c == '\x0b' || c == '\x0c'

/-- Python `str.upper`, character-wise on ASCII (`Char.toUpper` maps
`a`-`z` to `A`-`Z` and leaves everything else unchanged). -/
def pyUpper (s : PyStr) : PyStr := s.map Char.toUpper

/-- Python `str.strip()`: drop leading and trailing whitespace. -/
def pyStrip (s : PyStr) : PyStr :=
  ((s.dropWhile isPySpace).reverse.dropWhile isPySpace).reverse

/-- `needle.leadsWith hay`: does `hay` start with `needle`?
(Python `str.startswith`, also the matching step of `in`.) -/
def leadsWith : PyStr → PyStr → Bool
  | [], _ => true
  | _ :: _, [] => false
  | a :: as_, b :: bs => a == b && leadsWith as_ bs

/-- Python's substring test `needle in hay`. -/
def pyContains (hay needle : PyStr) : Bool :=
  match hay with
  | [] => needle.isEmpty
  | _ :: rest => leadsWith needle hay || pyContains rest needle

/-- Python `text.split(".")` (single-character separator). -/
def splitOnDot : PyStr → List PyStr
  | [] => [[]]
  | c :: rest =>
    match splitOnDot rest with
    | [] => [[c]]
    | p :: ps => if c == '.' then [] :: p :: ps else (c :: p) :: ps

/-- Number of `.` characters in a string (`text.count(".")`). -/
def countDots (s : PyStr) : Nat := s.countP (· == '.')

/-! ## `rasgoql/utils/sql.py` -/

/-- `SQL_INJECTION_KEYWORDS` from `utils/sql.py`. -/
def SQL_INJECTION_KEYWORDS : List PyStr :=
  [pyStr "DELETE", pyStr "TRUNCATE", pyStr "DROP", pyStr "ALTER",
   pyStr "UPDATE", pyStr "INSERT", pyStr "MERGE"]

/-- `is_scary_sql(sql)`: `any(word in sql.upper() for word in SQL_INJECTION_KEYWORDS)`. -/
def is_scary_sql (sql : PyStr) : Bool :=
  SQL_INJECTION_KEYWORDS.any (fun word => pyContains (pyUpper sql) word)

/-- The regex `^[^\s]+\.[^\s]+` of `validate_namespace`, as `re.match` uses
it: an unanchored-at-the-end prefix match.  `i` ranges over candidate
positions of the dot. -/
def namespaceRegexMatch (s : PyStr) : Bool :=
  (List.range s.length).any fun i =>
    decide (0 < i) && (s.getD i ' ' == '.') && decide (i + 1 < s.length) &&
    ((List.range i).all fun k => !isPySpace (s.getD k ' ')) &&
    !isPySpace (s.getD (i + 1) ' ')

/-- The regex `^[^\s]+\.[^\s]+\.[^\s]+` of `validate_fqtn`, as `re.match`
uses it: a prefix match; `i < j` are candidate positions of the two dots. -/
def fqtnRegexMatch (s : PyStr) : Bool :=
  (List.range s.length).any fun i =>
    (List.range s.length).any fun j =>
      decide (0 < i) && decide (i + 2 ≤ j) &&
      (s.getD i ' ' == '.') && (s.getD j ' ' == '.') &&
      decide (j + 1 < s.length) &&
      ((List.range i).all fun k => !isPySpace (s.getD k ' ')) &&
      ((List.range (j - i - 1)).all fun k => !isPySpace (s.getD (i + 1 + k) ' ')) &&
      !isPySpace (s.getD (j + 1) ' ')

/-- `validate_fqtn(fqtn)`: returns the input if the regex matches a prefix,
else raises `ValueError(f"{fqtn} is not a well-formed fqtn")`. -/
def validate_fqtn (fqtn : PyStr) : Except PyExc PyStr :=
  if fqtnRegexMatch fqtn then .ok fqtn
  else .error (.valueError (fqtn ++ pyStr " is not a well-formed fqtn"))

/-- `validate_namespace(namespace)`: returns the input if the regex matches
a prefix, else raises `ValueError(f"{namespace} is not a well-formed namespace")`. -/
def validate_namespace (ns : PyStr) : Except PyExc PyStr :=
  if namespaceRegexMatch ns then .ok ns
  else .error (.valueError (ns ++ pyStr " is not a well-formed namespace"))

/-- `parse_fqtn(fqtn)` in strict mode: validate, then `fqtn.split(".")`. -/
def parse_fqtn_strict (fqtn : PyStr) : Except PyExc (List PyStr) := do
  let f ← validate_fqtn fqtn
  .ok (splitOnDot f)

/-- `parse_namespace(namespace)` in strict mode: validate, then
`namespace.split(".")`. -/
def parse_namespace_strict (ns : PyStr) : Except PyExc (List PyStr) := do
  let n ← validate_namespace ns
  .ok (splitOnDot n)

/-! ## `_cleanse_template_symbol` (exposed to templates as `cleanse_name`) -/

/-- Characters kept by `re.sub('[^A-Z0-9_]+', '', symbol)`. -/
def isAllowedSymbolChar (c : Char) : Bool :=
  ('A' ≤ c && c ≤ 'Z') || ('0' ≤ c && c ≤ '9') || c == '_'

/-- Python `str.isdecimal` on the characters reachable after the cleanse
(ASCII): the decimal digits. -/
def isDecimalChar (c : Char) : Bool := '0' ≤ c && c ≤ '9'

/-- `symbol.replace(' ', '_').replace('-', '_')`. -/
def replaceSpaceDash (s : PyStr) : PyStr :=
  s.map fun c => if c == ' ' || c == '-' then '_' else c

/-- `_cleanse_template_symbol(symbol)` from `rendering.py`:
strip, replace spaces/dashes with underscores, uppercase, delete anything
outside `[A-Z0-9_]`, then
`symbol = '_' + symbol if symbol[0].isdecimal() or not symbol else symbol`.
Python evaluates `symbol[0]` first, so when the filtered string is empty
the function raises `IndexError`; this is the `none` case. -/
def cleanse_name (symbol : PyStr) : Option PyStr :=
  match (pyUpper (replaceSpaceDash (pyStrip symbol))).filter isAllowedSymbolChar with
  | [] => none
  | c :: cs => some (if isDecimalChar c then '_' :: c :: cs else c :: cs)

/-! ## `rasgoql/primitives/transforms.py`: the `Transform` value -/

/-- The fields of a `Transform` that the chain assembler reads.
`nspace` is the Python attribute `namespace` (a Lean keyword). -/
structure Transform where
  name : PyStr
  arguments : List (PyStr × PyStr)
  nspace : PyStr
  output_alias : PyStr
  source_table : PyStr
  deriving DecidableEq, Repr

/-- `Transform.fqtn`: `f'{self.namespace}.{self.output_alias}'`. -/
def Transform.fqtn (t : Transform) : PyStr :=
  t.nspace ++ '.' :: t.output_alias

/-- The rendering collaborator: `generate_transform_sql` applied to one
transform together with the current `running_sql`.  The chain assemblers
treat it as a black box producing the transform's SQL fragment. -/
abbrev Render := Transform → Option PyStr → PyStr

/-! ## `rasgoql/primitives/rendering.py`: chain assembly -/

/-- `_collapse_cte(sql)`: if `sql.upper().startswith('WITH')`, apply
`re.sub(r'^(WITH)\s', r', ', sql, 1, flags=re.IGNORECASE)` — that is,
when the leading `WITH` is followed by a whitespace character, replace
those five characters by `', '`; otherwise the string is unchanged. -/
def collapseCte (sql : PyStr) : PyStr :=
  if leadsWith (pyStr "WITH") (pyUpper sql) then
    match sql with
    | a :: b :: c :: d :: e :: rest =>
      if isPySpace e then ',' :: ' ' :: rest else a :: b :: c :: d :: e :: rest
    | s => s
  else sql

/-- `', \n'.join(cte_list)`. -/
def joinCtes (l : List PyStr) : PyStr := (l.intersperse (pyStr ", \n")).flatten

/-- `'\n'.join(view_list)`. -/
def joinViews (l : List PyStr) : PyStr := (l.intersperse (pyStr "\n")).flatten

/-- `_construct_running_sql(cte_list, sql)`. -/
def constructRunningSql (cteList : List PyStr) (sql : PyStr) : PyStr :=
  if cteList.length = 0 then sql
  else pyStr "WITH " ++ joinCtes cteList ++ collapseCte sql

/-- `_set_create_statement(table_type, fqtn)`: a
`CREATE OR REPLACE {table_type} {fqtn} AS \n` prefix when a table type is
requested, else the empty string.  (`check_write_table_type` upcases and
validates; the callers below always pass an already-valid upper-case type
or `None`.) -/
def setCreateStatement (tableType : Option PyStr) (fqtn : PyStr) : PyStr :=
  match tableType with
  | some tt => pyStr "CREATE OR REPLACE " ++ tt ++ ' ' :: fqtn ++ pyStr " AS \n"
  | none => []

/-- The CTE fragment `f'{t.output_alias} AS (\n{t_sql}\n) '` built for each
non-terminal transform. -/
def cteStr (t : Transform) (tSql : PyStr) : PyStr :=
  t.output_alias ++ pyStr " AS (\n" ++ tSql ++ pyStr "\n) "

/-- The view statement `f'CREATE OR REPLACE VIEW {t.fqtn} AS {t_sql};'`
built for each transform of a view chain. -/
def viewStr (t : Transform) (tSql : PyStr) : PyStr :=
  pyStr "CREATE OR REPLACE VIEW " ++ t.fqtn ++ pyStr " AS " ++ tSql ++ pyStr ";"

/-- The multi-transform loop of `assemble_cte_chain`: walks the transform
list threading `running_sql` and accumulating `t_list`; the structurally
last transform is the terminal one (`t == transforms[-1]` in the source is
an object-identity test, true exactly at the last iteration for the
distinct `Transform` objects `.transform()` builds).  At the terminal
transform it emits `create_stmt + 'WITH ' + ', \n'.join(t_list) + final_select`
with `final_select = _collapse_cte(t_sql)` (the chain has > 1 transform). -/
def cteChainGo (render : Render) (tableType : Option PyStr) :
    List Transform → Option PyStr → List PyStr → PyStr
  | [], _, tList => pyStr "WITH " ++ joinCtes tList
  | [t], running, tList =>
    setCreateStatement tableType t.fqtn ++ pyStr "WITH " ++ joinCtes tList ++
      collapseCte (render t running)
  | t :: t₂ :: rest, running, tList =>
    let tSql := render t running
    cteChainGo render tableType (t₂ :: rest)
      (some (constructRunningSql tList tSql)) (tList ++ [cteStr t tSql])

/-- `assemble_cte_chain(transforms, table_type)`.  A single-transform chain
returns `create_stmt + generate_transform_sql(...)` directly; a longer
chain runs the CTE loop.  (An empty list never reaches this function —
`SQLChain.sql` short-circuits — but the loop body gives `'WITH '`.) -/
def assemble_cte_chain (render : Render) (transforms : List Transform)
    (tableType : Option PyStr) : PyStr :=
  match transforms with
  | [t] => setCreateStatement tableType t.fqtn ++ render t none
  | ts => cteChainGo render tableType ts none []

/-- The loop of `assemble_view_chain`: for each transform, render with the
current `running_sql`, update `running_sql` from the previous CTE list,
and append to both the CTE list and the view list; the result is
`'\n'.join(view_list)`. -/
def viewChainGo (render : Render) :
    List Transform → Option PyStr → List PyStr → List PyStr → PyStr
  | [], _, _, viewList => joinViews viewList
  | t :: rest, running, cteList, viewList =>
    let tSql := render t running
    viewChainGo render rest (some (constructRunningSql cteList tSql))
      (cteList ++ [cteStr t tSql]) (viewList ++ [viewStr t tSql])

/-- `assemble_view_chain(transforms)`. -/
def assemble_view_chain (render : Render) (transforms : List Transform) : PyStr :=
  viewChainGo render transforms none [] []

/-! ## `generate_transform_sql` -/

/-- The fields of a `TransformTemplate` that `generate_transform_sql`
reads. -/
structure TransformTemplate where
  name : PyStr
  source_code : PyStr
  deriving DecidableEq, Repr

/-- Python's ordered `dict` of template arguments, as an association list
with unique keys. -/
abbrev Args := List (PyStr × PyStr)

/-- `d[k]` lookup on the argument dict. -/
def dictGet (k : PyStr) : Args → Option PyStr
  | [] => none
  | (k₂, v) :: rest => if k₂ = k then some v else dictGet k rest

/-- Remove the entry with key `k` (keys are unique in a Python dict). -/
def dictRemove (k : PyStr) : Args → Args
  | [] => []
  | (k₂, v) :: rest => if k₂ = k then rest else (k₂, v) :: dictRemove k rest

/-- `arguments.pop('sql')`: return the value and the dict without the key,
or raise `KeyError('sql')`. -/
def dictPop (k : PyStr) (d : Args) : Except PyExc (PyStr × Args) :=
  match dictGet k d with
  | none => .error (.keyError k)
  | some v => .ok (v, dictRemove k d)

/-- The inner renderer `render_template_from_macro(name, source_code,
arguments, source_table, running_sql, dw)`: Jinja evaluation, abstracted
as a collaborator that may raise any exception. -/
abbrev TemplateRender :=
  PyStr → Args → Option PyStr → Option PyStr → Except PyExc PyStr

/-- `generate_transform_sql(name, arguments, source_table, running_sql, dw)`.

The source first evaluates
`udt = [t for t in templates if t.name == name][0]` — when no template
matches, this indexing raises `IndexError` *outside* the `try` block (the
subsequent `if not udt:` guard is unreachable: a `TransformTemplate`
object is always truthy).  Inside the `try`, the reserved `apply`
template replaces its source code with `arguments.pop('sql')` (mutating
the caller's dict, modelled by returning the updated `Args`), raising
`TransformRenderingError` when that value is empty; then the template is
rendered.  `except Exception as e: raise TransformRenderingError(e)`
wraps any exception of the `try` body with its original message. -/
def generate_transform_sql (templates : List TransformTemplate)
    (render : TemplateRender) (name : PyStr) (arguments : Args)
    (sourceTable runningSql : Option PyStr) : Except PyExc (PyStr × Args) :=
  match templates.filter (fun t => t.name = name) with
  | [] => .error .indexError
  | udt :: _ =>
    let tryBody : Except PyExc (PyStr × Args) := do
      let (sourceCode, args₂) ←
        if udt.name = pyStr "apply" then do
          let (sqlArg, args₂) ← dictPop (pyStr "sql") arguments
          if sqlArg.isEmpty then
            .error (.transformRenderingError (pyStr
              "Custom transform apply must provide the \x22sql\x22 argument with template to apply"))
          else pure (sqlArg, args₂)
        else pure (udt.source_code, arguments)
      let rendered ← render sourceCode args₂ sourceTable runningSql
      pure (rendered, args₂)
    match tryBody with
    | .ok r => .ok r
    | .error e => .error (.transformRenderingError (excMessage e))

/-! ## `SnowflakeDataWarehouse.execute_query` and the `run_query` helper -/

/-- `ResponseType` values accepted by `check_response_type`. -/
def RESPONSE_TYPES : List PyStr :=
  [pyStr "DICT", pyStr "DF", pyStr "TUPLE", pyStr "NONE"]

/-- `check_response_type(input_value)`: upcase and look the name up in the
`ResponseType` enum, raising `ParameterException` on a miss. -/
def check_response_type (inputValue : PyStr) : Except PyExc PyStr :=
  if pyUpper inputValue ∈ RESPONSE_TYPES then .ok (pyUpper inputValue)
  else .error (.parameterException (pyStr "response parameter accepts values"))

/-- One statement issued to the warehouse connection: the SQL text and the
response format it was requested with. -/
abbrev DWCall := PyStr × PyStr

/-- A stub warehouse connection: decides whether a statement succeeds.
The trace of issued statements is returned alongside the result. -/
abbrev ExecOracle := PyStr → Bool

/-- `SnowflakeDataWarehouse.execute_query(sql, response, acknowledge_risk)`:
validate the response type, fail fast with `SQLWarning` when the SQL is
scary and the risk is not acknowledged, and only then hand the statement
to the connection cursor.  Returns the result together with the list of
statements that reached the connection. -/
def execute_query (oracle : ExecOracle) (sql response : PyStr)
    (acknowledgeRisk : Bool) : Except PyExc Unit × List DWCall :=
  match check_response_type response with
  | .error e => (.error e, [])
  | .ok resp =>
    if is_scary_sql sql && !acknowledgeRisk then
      (.error (.sqlWarning (pyStr
        "It looks like your SQL statement contains a potentially dangerous or data-altering operation.")),
       [])
    else
      (if oracle sql then .ok () else .error (.renderError (pyStr "query failed")),
       [(sql, resp)])

/-- The `CREATE OR REPLACE VIEW ... LIMIT 100` statement `_run_query`
issues when `running_sql` is present (`RUN_QUERY_LIMIT = 100`). -/
def runQueryCreateSql (sourceTable runningSql : PyStr) : PyStr :=
  pyStr "CREATE OR REPLACE VIEW " ++ sourceTable ++ pyStr " AS " ++ runningSql ++
    pyStr " LIMIT 100"

/-- The `DROP VIEW IF EXISTS ...` statement `_run_query` issues in its
`finally` block. -/
def runQueryDropSql (sourceTable : PyStr) : PyStr :=
  pyStr "DROP VIEW IF EXISTS " ++ sourceTable

/-- `_run_query(query, source_table, running_sql, dw)`: when `running_sql`
is present, create the temporary view (response `'none'`), run the main
query (response `'df'`), and in a `finally` block drop the view (response
`'none'`); the drop runs on every path, and an exception from the `try`
body propagates after it (a failing drop replaces it, per Python
`finally`).  Each warehouse call passes `acknowledge_risk=True`.  The
returned trace concatenates the statements issued by the nested
`execute_query` calls, in order. -/
def run_query (oracle : ExecOracle) (query : PyStr) (sourceTable : PyStr) :
    Option PyStr → Except PyExc Unit × List DWCall
  | none => execute_query oracle query (pyStr "df") true
  | some r =>
    let create := execute_query oracle (runQueryCreateSql sourceTable r) (pyStr "none") true
    match create.1 with
    | .error e =>
      let drop := execute_query oracle (runQueryDropSql sourceTable) (pyStr "none") true
      (match drop.1 with
       | .error e₂ => .error e₂
       | .ok _ => .error e,
       create.2 ++ drop.2)
    | .ok _ =>
      let qr := execute_query oracle query (pyStr "df") true
      let drop := execute_query oracle (runQueryDropSql sourceTable) (pyStr "none") true
      (match drop.1 with
       | .error e₂ => .error e₂
       | .ok _ => qr.1,
       create.2 ++ qr.2 ++ drop.2)

/-! ## Character-level lemmas -/

theorem char_le_iff_toNat {a b : Char} : a ≤ b ↔ a.toNat ≤ b.toNat := by
  rw [Char.le_def, UInt32.le_def, BitVec.le_def]; rfl

theorem isAllowed_toNat {c : Char} (h : isAllowedSymbolChar c = true) :
    (65 ≤ c.toNat ∧ c.toNat ≤ 90) ∨ (48 ≤ c.toNat ∧ c.toNat ≤ 57) ∨ c = '_' := by
  simp only [isAllowedSymbolChar, Bool.or_eq_true, Bool.and_eq_true,
    decide_eq_true_eq, beq_iff_eq] at h
  rcases h with (⟨h₁, h₂⟩ | ⟨h₁, h₂⟩) | h
  · exact .inl ⟨char_le_iff_toNat.mp h₁, char_le_iff_toNat.mp h₂⟩
  · exact .inr (.inl ⟨char_le_iff_toNat.mp h₁, char_le_iff_toNat.mp h₂⟩)
  · exact .inr (.inr h)

theorem isPySpace_toNat {c : Char} (h : isPySpace c = true) :
    c.toNat = 32 ∨ c.toNat = 9 ∨ c.toNat = 10 ∨ c.toNat = 13 ∨
    c.toNat = 11 ∨ c.toNat = 12 := by
  simp only [isPySpace, Bool.or_eq_true, beq_iff_eq] at h
  rcases h with ((((h | h) | h) | h) | h) | h <;> subst h <;> simp

theorem isAllowed_not_space {c : Char} (h : isAllowedSymbolChar c = true) :
    isPySpace c = false := by
  cases hs : isPySpace c
  · rfl
  · exfalso
    rcases isAllowed_toNat h with ⟨h₁, h₂⟩ | ⟨h₁, h₂⟩ | h₃
    · rcases isPySpace_toNat hs with h | h | h | h | h | h <;> omega
    · rcases isPySpace_toNat hs with h | h | h | h | h | h <;> omega
    · subst h₃; simp [isPySpace] at hs

theorem isAllowed_not_space_dash {c : Char} (h : isAllowedSymbolChar c = true) :
    (c == ' ' || c == '-') = false := by
  cases hs : (c == ' ' || c == '-')
  · rfl
  · exfalso
    simp only [Bool.or_eq_true, beq_iff_eq] at hs
    rcases hs with h₄ | h₄ <;> subst h₄ <;> exact absurd h (by decide)

theorem isAllowed_toUpper {c : Char} (h : isAllowedSymbolChar c = true) :
    c.toUpper = c := by
  rcases isAllowed_toNat h with ⟨h₁, h₂⟩ | ⟨h₁, h₂⟩ | h₃
  · unfold Char.toUpper; rw [if_neg (by omega)]
  · unfold Char.toUpper; rw [if_neg (by omega)]
  · subst h₃; decide

theorem dropWhile_eq_self_of_forall {p : Char → Bool} {l : PyStr}
    (h : ∀ c ∈ l, p c = false) : l.dropWhile p = l := by
  cases l with
  | nil => rfl
  | cons c cs =>
    rw [List.dropWhile_cons, if_neg (by simp [h c (List.mem_cons_self c cs)])]

theorem pyStrip_eq_self_of_forall {l : PyStr}
    (h : ∀ c ∈ l, isPySpace c = false) : pyStrip l = l := by
  unfold pyStrip
  rw [dropWhile_eq_self_of_forall h,
    dropWhile_eq_self_of_forall (fun c hc => h c (List.mem_reverse.mp hc)),
    List.reverse_reverse]

theorem replaceSpaceDash_eq_self_of_forall {l : PyStr}
    (h : ∀ c ∈ l, isAllowedSymbolChar c = true) : replaceSpaceDash l = l := by
  unfold replaceSpaceDash
  rw [show l.map (fun c => if c == ' ' || c == '-' then '_' else c) = l.map id from
    List.map_congr_left (fun c hc => by rw [isAllowed_not_space_dash (h c hc)]; rfl),
    List.map_id]

theorem pyUpper_eq_self_of_forall {l : PyStr}
    (h : ∀ c ∈ l, isAllowedSymbolChar c = true) : pyUpper l = l := by
  unfold pyUpper
  rw [show l.map Char.toUpper = l.map id from
    List.map_congr_left (fun c hc => isAllowed_toUpper (h c hc)), List.map_id]

/-- A nonempty all-allowed string with a non-decimal head is a fixed point
of `cleanse_name`. -/
theorem cleanse_name_fixpoint {c : Char} {cs : PyStr}
    (hall : ∀ x ∈ c :: cs, isAllowedSymbolChar x = true)
    (hc : isDecimalChar c = false) :
    cleanse_name (c :: cs) = some (c :: cs) := by
  unfold cleanse_name
  rw [pyStrip_eq_self_of_forall (fun x hx => isAllowed_not_space (hall x hx)),
    replaceSpaceDash_eq_self_of_forall hall, pyUpper_eq_self_of_forall hall,
    List.filter_eq_self.mpr hall]
  simp [hc]

/-- Every `some` result of `cleanse_name` is a nonempty all-allowed string
whose head is not a decimal digit. -/
theorem cleanse_name_shape {x m : PyStr} (h : cleanse_name x = some m) :
    ∃ c cs, m = c :: cs ∧ (∀ y ∈ c :: cs, isAllowedSymbolChar y = true) ∧
      isDecimalChar c = false := by
  unfold cleanse_name at h
  split at h
  case h_1 => exact absurd h (by simp)
  case h_2 c cs hse =>
    have hall : ∀ y ∈ c :: cs, isAllowedSymbolChar y = true := by
      rw [← hse]; exact fun y hy => List.of_mem_filter hy
    simp only [Option.some.injEq] at h
    by_cases hd : isDecimalChar c = true
    · refine ⟨'_', c :: cs, ?_, ?_, by decide⟩
      · rw [← h]; simp [hd]
      · intro y hy
        rcases List.mem_cons.mp hy with hy | hy
        · subst hy; decide
        · exact hall y hy
    · refine ⟨c, cs, ?_, hall, by simpa using hd⟩
      rw [← h]; simp [hd]

/-- C4: `cleanse_name` is idempotent.  For every input `x`, re-cleansing
the result of `cleanse_name x` (when it produces one — on an input whose
characters are all stripped the function raises `IndexError`, the `none`
case) returns that result unchanged: `(cleanse_name x).bind cleanse_name
= cleanse_name x`. -/
theorem claim_C4_cleanse_name_idempotent (x : PyStr) :
    (cleanse_name x).bind cleanse_name = cleanse_name x := by
  match hm : cleanse_name x with
  | none => rfl
  | some m =>
    obtain ⟨c, cs, hmc, hall, hc⟩ := cleanse_name_shape hm
    subst hmc
    exact cleanse_name_fixpoint hall hc

/-- C5: `cleanse_name` on the spec's examples, and on an input whose
characters are all stripped.  `cleanse_name("My Col-1") = "MY_COL_1"` and
`cleanse_name("1abc") = "_1ABC"` hold, but an input such as `"!!!"` whose
characters are all deleted does **not** yield `"_"`: the source evaluates
`symbol[0].isdecimal()` before `not symbol`, so on the empty filtered
string it raises `IndexError` (the `none` case of the model) instead of
prefixing an underscore. -/
theorem claim_C5_cleanse_name_examples_and_empty_crash :
    cleanse_name (pyStr "My Col-1") = some (pyStr "MY_COL_1") ∧
    cleanse_name (pyStr "1abc") = some (pyStr "_1ABC") ∧
    cleanse_name (pyStr "!!!") = none := by
  refine ⟨by decide, by decide, by decide⟩

/-! ## Substring lemmas for `is_scary_sql` -/

theorem leadsWith_iff {needle hay : PyStr} :
    leadsWith needle hay = true ↔ ∃ post, hay = needle ++ post := by
  induction needle generalizing hay with
  | nil =>
    constructor
    · intro _; exact ⟨hay, rfl⟩
    · intro _; rfl
  | cons a as_ ih =>
    cases hay with
    | nil => simp [leadsWith]
    | cons b bs =>
      simp only [leadsWith, Bool.and_eq_true, beq_iff_eq, ih]
      constructor
      · rintro ⟨rfl, post, rfl⟩; exact ⟨post, rfl⟩
      · rintro ⟨post, h⟩
        simp only [List.cons_append] at h
        rcases List.cons_eq_cons.mp h with ⟨rfl, h₂⟩
        exact ⟨rfl, post, h₂⟩

theorem pyContains_iff {hay needle : PyStr} :
    pyContains hay needle = true ↔ ∃ pre post, hay = pre ++ needle ++ post := by
  induction hay with
  | nil =>
    simp only [pyContains, List.isEmpty_iff]
    constructor
    · rintro rfl; exact ⟨[], [], rfl⟩
    · rintro ⟨pre, post, h⟩
      rcases List.append_eq_nil.mp (h.symm) with ⟨h₁, h₂⟩
      exact (List.append_eq_nil.mp h₁).2
  | cons c rest ih =>
    simp only [pyContains, Bool.or_eq_true, leadsWith_iff, ih]
    constructor
    · rintro (⟨post, h⟩ | ⟨pre, post, rfl⟩)
      · exact ⟨[], post, by simpa using h⟩
      · exact ⟨c :: pre, post, rfl⟩
    · rintro ⟨pre, post, h⟩
      cases pre with
      | nil => exact .inl ⟨post, by simpa using h⟩
      | cons p ps =>
        simp only [List.cons_append] at h
        rcases List.cons_eq_cons.mp h with ⟨rfl, h₂⟩
        exact .inr ⟨ps, post, h₂⟩

/-- C10: `is_scary_sql(sql)` is true exactly when the uppercased text of
`sql` contains one of the seven `SQL_INJECTION_KEYWORDS` as a contiguous
substring — including inside longer identifiers, as the flagged plain
`SELECT` naming a column `UPDATED_AT` shows — and false otherwise. -/
theorem claim_C10_is_scary_sql_characterization :
    (∀ sql : PyStr, is_scary_sql sql = true ↔
      ∃ w ∈ SQL_INJECTION_KEYWORDS, ∃ pre post, pyUpper sql = pre ++ w ++ post) ∧
    is_scary_sql (pyStr "SELECT UPDATED_AT FROM t") = true ∧
    is_scary_sql (pyStr "select name from users") = false := by
  refine ⟨fun sql => ?_, by decide, by decide⟩
  simp only [is_scary_sql, List.any_eq_true, pyContains_iff]

/-! ## `execute_query` fail-fast on scary SQL -/

/-- C9: `is_scary_sql("DROP TABLE x")` is true, and for every SQL string
containing a blacklisted keyword, `execute_query` with
`acknowledge_risk=False` returns an error — `SQLWarning`, or
`ParameterException` for an invalid response format — before any
statement reaches the warehouse connection (the call trace is empty). -/
theorem claim_C9_execute_query_fail_fast (oracle : ExecOracle)
    (sql response : PyStr) (h : is_scary_sql sql = true) :
    is_scary_sql (pyStr "DROP TABLE x") = true ∧
    ∃ e, execute_query oracle sql response false = (.error e, []) := by
  refine ⟨by decide, ?_⟩
  unfold execute_query
  cases hr : check_response_type response with
  | error e => exact ⟨e, rfl⟩
  | ok resp =>
    refine ⟨.sqlWarning (pyStr
      "It looks like your SQL statement contains a potentially dangerous or data-altering operation."), ?_⟩
    rw [h]
    rfl

/-- Witness for C9 at `sql = "DROP TABLE x"`, `response = "tuple"`, the
always-succeeding stub connection. -/
theorem claim_C9_execute_query_fail_fast_witness :
    ∃ e, execute_query (fun _ => true) (pyStr "DROP TABLE x") (pyStr "tuple")
      false = (.error e, []) :=
  (claim_C9_execute_query_fail_fast (fun _ => true) (pyStr "DROP TABLE x")
    (pyStr "tuple") (by decide)).2

/-! ## `run_query` guaranteed cleanup -/

theorem execute_query_acknowledged (oracle : ExecOracle) (sql resp resp' : PyStr)
    (h : check_response_type resp = .ok resp') :
    execute_query oracle sql resp true =
      ((if oracle sql then .ok () else .error (.renderError (pyStr "query failed"))),
        [(sql, resp')]) := by
  unfold execute_query
  rw [h]
  simp

theorem createSql_ne_dropSql (st r : PyStr) :
    runQueryCreateSql st r ≠ runQueryDropSql st := by
  intro h
  have h' : ('C' : Char) = 'D' := congrArg (fun l => l.headD ' ') h
  exact absurd h' (by decide)

/-- C3: whenever `_run_query` runs with a non-null `running_sql`, the
warehouse receives exactly one statement equal to the
`DROP VIEW IF EXISTS {source_table}` drop of the temporary view — on the
success path and on every failure path (create failed, main query failed,
in all combinations the stub connection can produce) — provided the main
query is not itself that drop statement. -/
theorem claim_C3_run_query_exactly_one_drop (oracle : ExecOracle)
    (query sourceTable r : PyStr)
    (hq : query ≠ runQueryDropSql sourceTable) :
    ((run_query oracle query sourceTable (some r)).2.filter
      (fun call => call.1 = runQueryDropSql sourceTable)).length = 1 := by
  have hnone : check_response_type (pyStr "none") = .ok (pyStr "NONE") := by rfl
  have hdf : check_response_type (pyStr "df") = .ok (pyStr "DF") := by rfl
  have hEn : ∀ s, execute_query oracle s (pyStr "none") true =
      ((if oracle s then .ok () else .error (.renderError (pyStr "query failed"))),
        [(s, pyStr "NONE")]) :=
    fun s => execute_query_acknowledged oracle s _ _ hnone
  have hEd : ∀ s, execute_query oracle s (pyStr "df") true =
      ((if oracle s then .ok () else .error (.renderError (pyStr "query failed"))),
        [(s, pyStr "DF")]) :=
    fun s => execute_query_acknowledged oracle s _ _ hdf
  by_cases hc : oracle (runQueryCreateSql sourceTable r) <;>
    by_cases hd : oracle (runQueryDropSql sourceTable) <;>
    by_cases hm : oracle query <;>
    simp [run_query, hEn, hEd, hc, hd, hm, List.filter,
      createSql_ne_dropSql sourceTable r, hq]

/-- Witness for C3: a concrete query, view name, running SQL and an
always-succeeding stub connection. -/
theorem claim_C3_run_query_exactly_one_drop_witness :
    ((run_query (fun _ => true) (pyStr "SELECT * FROM V") (pyStr "V")
      (some (pyStr "SELECT 1"))).2.filter
      (fun call => call.1 = runQueryDropSql (pyStr "V"))).length = 1 :=
  claim_C3_run_query_exactly_one_drop (fun _ => true) (pyStr "SELECT * FROM V")
    (pyStr "V") (pyStr "SELECT 1") (by decide)

/-! ## `generate_transform_sql`: error wrapping and argument mutation -/

/-- A stub for the inner Jinja renderer that returns the template source
unchanged. -/
def renderEcho : TemplateRender := fun sourceCode _ _ _ => .ok sourceCode

/-- C2: an unknown template name does **not** surface as
`TransformRenderingError`.  The lookup
`[t for t in templates if t.name == name][0]` sits outside the `try`
block, so when no template matches it raises a bare `IndexError`
(`list index out of range`), which escapes unwrapped — the dead
`if not udt:` guard below it never runs.  Exceptions raised inside the
`try` body are wrapped, but this one is not. -/
theorem claim_C2_unknown_template_escapes_unwrapped :
    generate_transform_sql [⟨pyStr "fill_missing", pyStr "SELECT 1"⟩] renderEcho
        (pyStr "no_such_transform") [] none none = .error .indexError ∧
    (∀ msg, (PyExc.indexError = PyExc.transformRenderingError msg) → False) := by
  exact ⟨rfl, fun msg h => PyExc.noConfusion h⟩

/-- C7: rendering the reserved `apply` template mutates the `Transform`'s
arguments.  `generate_transform_sql` executes `arguments.pop('sql')` on
the caller's dict, so after one successful render the `sql` key is gone
from the transform's `arguments` mapping, and rendering the same
transform a second time fails with
`TransformRenderingError('sql')` (the wrapped `KeyError`). -/
theorem claim_C7_apply_render_mutates_arguments :
    generate_transform_sql [⟨pyStr "apply", pyStr "IGNORED"⟩] renderEcho
        (pyStr "apply")
        [(pyStr "sql", pyStr "SELECT 1"), (pyStr "source_table", pyStr "T")]
        none none
      = .ok (pyStr "SELECT 1", [(pyStr "source_table", pyStr "T")]) ∧
    dictGet (pyStr "sql")
        [(pyStr "sql", pyStr "SELECT 1"), (pyStr "source_table", pyStr "T")]
      = some (pyStr "SELECT 1") ∧
    dictGet (pyStr "sql") [(pyStr "source_table", pyStr "T")] = none ∧
    generate_transform_sql [⟨pyStr "apply", pyStr "IGNORED"⟩] renderEcho
        (pyStr "apply") [(pyStr "source_table", pyStr "T")] none none
      = .error (.transformRenderingError (pyStr "sql")) := by
  exact ⟨rfl, rfl, rfl, rfl⟩

/-! ## Chain assembly: structure of the output -/

theorem getLastD_cons_of_ne_nil {α : Type} (a d : α) {l : List α} (h : l ≠ []) :
    (a :: l).getLastD d = l.getLastD d := by
  cases l with
  | nil => exact absurd rfl h
  | cons b t => simp [List.getLastD_cons]

/-- Invariant of the `assemble_view_chain` loop: whatever the accumulated
`running_sql` and CTE list are, the loop appends one
`CREATE OR REPLACE VIEW` statement per remaining transform, in order. -/
theorem viewChainGo_spec (render : Render) :
    ∀ (ts : List Transform) (running : Option PyStr) (cteList viewList : List PyStr),
      ∃ sqls : List PyStr, sqls.length = ts.length ∧
        viewChainGo render ts running cteList viewList =
          joinViews (viewList ++ List.zipWith viewStr ts sqls) := by
  intro ts
  induction ts with
  | nil => exact fun running cteList viewList => ⟨[], rfl, by simp [viewChainGo]⟩
  | cons t rest ih =>
    intro running cteList viewList
    obtain ⟨sqls', hlen, heq⟩ :=
      ih (some (constructRunningSql cteList (render t running)))
        (cteList ++ [cteStr t (render t running)])
        (viewList ++ [viewStr t (render t running)])
    refine ⟨render t running :: sqls', by simp [hlen], ?_⟩
    rw [show viewChainGo render (t :: rest) running cteList viewList =
        viewChainGo render rest (some (constructRunningSql cteList (render t running)))
          (cteList ++ [cteStr t (render t running)])
          (viewList ++ [viewStr t (render t running)]) from rfl,
      heq, List.zipWith_cons_cons]
    simp [List.append_assoc]

/-- C8: for every transform list and every behaviour of the renderer,
`assemble_view_chain` emits exactly one `CREATE OR REPLACE VIEW`
statement per transform — the `'\n'`-join of
`CREATE OR REPLACE VIEW {t.fqtn} AS {t_sql};` fragments, one per
transform in list order, each targeting that transform's fully qualified
output name. -/
theorem claim_C8_assemble_view_chain_one_view_per_transform
    (render : Render) (ts : List Transform) :
    ∃ sqls : List PyStr, sqls.length = ts.length ∧
      assemble_view_chain render ts = joinViews (List.zipWith viewStr ts sqls) ∧
      (List.zipWith viewStr ts sqls).length = ts.length := by
  obtain ⟨sqls, hlen, heq⟩ := viewChainGo_spec render ts none [] []
  exact ⟨sqls, hlen, by simpa using heq, by simp [hlen]⟩

/-- Invariant of the multi-transform `assemble_cte_chain` loop with
`table_type = None`: one named CTE per non-terminal remaining transform is
appended to the accumulated list, and the terminal transform contributes
the collapsed final select. -/
theorem cteChainGo_spec (render : Render) :
    ∀ (ts : List Transform) (running : Option PyStr) (tList : List PyStr),
      ts ≠ [] →
      ∃ sqls : List PyStr, sqls.length = ts.length ∧
        cteChainGo render none ts running tList =
          pyStr "WITH " ++
            joinCtes (tList ++ List.zipWith cteStr ts.dropLast sqls.dropLast) ++
            collapseCte (sqls.getLastD []) := by
  intro ts
  induction ts with
  | nil => exact fun _ _ h => absurd rfl h
  | cons t rest ih =>
    intro running tList _
    cases rest with
    | nil =>
      refine ⟨[render t running], rfl, ?_⟩
      simp [cteChainGo, setCreateStatement, List.getLastD_cons]
    | cons t₂ rest₂ =>
      obtain ⟨sqls', hlen, heq⟩ :=
        ih (some (constructRunningSql tList (render t running)))
          (tList ++ [cteStr t (render t running)]) (by simp)
      cases sqls' with
      | nil => exact absurd hlen.symm (by simp)
      | cons s₀ sqls₂ =>
        refine ⟨render t running :: s₀ :: sqls₂, by simpa using hlen, ?_⟩
        rw [show cteChainGo render none (t :: t₂ :: rest₂) running tList =
            cteChainGo render none (t₂ :: rest₂)
              (some (constructRunningSql tList (render t running)))
              (tList ++ [cteStr t (render t running)]) from rfl,
          heq, List.dropLast_cons₂, List.dropLast_cons₂,
          List.zipWith_cons_cons,
          getLastD_cons_of_ne_nil _ _ (by simp : (s₀ :: sqls₂) ≠ [])]
        simp [List.append_assoc]

/-- C1: with `render_method = SELECT` (`table_type = None`), a
single-transform chain renders to exactly the transform's raw fragment,
with no CTE wrapping; a chain of `n ≥ 2` transforms renders to a single
statement beginning with `WITH` that contains one named CTE
(`{alias} AS (\n{sql}\n) `) per non-terminal transform — `n - 1` of
them, in transform order — followed by the terminal transform's
(collapsed) select. -/
theorem claim_C1_assemble_cte_chain_select_structure :
    (∀ (render : Render) (t : Transform),
      assemble_cte_chain render [t] none = render t none) ∧
    (∀ (render : Render) (ts : List Transform), 2 ≤ ts.length →
      ∃ sqls : List PyStr, sqls.length = ts.length ∧
        assemble_cte_chain render ts none =
          pyStr "WITH " ++
            joinCtes (List.zipWith cteStr ts.dropLast sqls.dropLast) ++
            collapseCte (sqls.getLastD []) ∧
        (List.zipWith cteStr ts.dropLast sqls.dropLast).length = ts.length - 1 ∧
        leadsWith (pyStr "WITH") (assemble_cte_chain render ts none) = true) := by
  constructor
  · intro render t
    simp [assemble_cte_chain, setCreateStatement]
  · intro render ts hlen
    match ts, hlen with
    | t₁ :: t₂ :: rest, _ =>
      obtain ⟨sqls, hl, heq⟩ :=
        cteChainGo_spec render (t₁ :: t₂ :: rest) none [] (by simp)
      have hchain : assemble_cte_chain render (t₁ :: t₂ :: rest) none =
          cteChainGo render none (t₁ :: t₂ :: rest) none [] := rfl
      refine ⟨sqls, hl, ?_, ?_, ?_⟩
      · rw [hchain, heq]; simp
      · have h₁ : (t₁ :: t₂ :: rest).dropLast.length = rest.length + 1 := by simp
        have h₂ : sqls.dropLast.length = rest.length + 1 := by
          rw [List.length_dropLast, hl]
          simp
        simp [List.length_zipWith, h₁, h₂]
      · rw [hchain, heq]
        refine leadsWith_iff.mpr ⟨pyStr " " ++
          (joinCtes ([] ++ List.zipWith cteStr (t₁ :: t₂ :: rest).dropLast sqls.dropLast) ++
            collapseCte (sqls.getLastD [])), ?_⟩
        rfl

/-! ## Strict identifier validation: what the unanchored regexes accept -/

theorem getD_eq_of_lt {s : PyStr} {k : Nat} (h : k < s.length) :
    s.getD k ' ' = s.get ⟨k, h⟩ := by
  simp [List.getD_eq_getElem?_getD, List.getElem?_eq_getElem h]

/-- `re.match(r"^[^\s]+\.[^\s]+", s)` succeeds exactly when `s` has a
prefix of the form ⟨nonspace⁺ `.` nonspace⟩. -/
theorem namespaceRegexMatch_iff (s : PyStr) :
    namespaceRegexMatch s = true ↔
    ∃ (a : PyStr) (c₀ : Char) (rest : PyStr),
      s = a ++ '.' :: c₀ :: rest ∧ a ≠ [] ∧
      (∀ c ∈ a, isPySpace c = false) ∧ isPySpace c₀ = false := by
  unfold namespaceRegexMatch
  rw [List.any_eq_true]
  constructor
  · rintro ⟨i, hmem, hcond⟩
    have hilen : i < s.length := List.mem_range.mp hmem
    simp only [Bool.and_eq_true, decide_eq_true_eq, beq_iff_eq,
      List.all_eq_true, Bool.not_eq_true', List.mem_range] at hcond
    obtain ⟨⟨⟨⟨hi, hdot⟩, hlen⟩, hall⟩, hc⟩ := hcond
    rw [getD_eq_of_lt hilen, List.get_eq_getElem] at hdot
    rw [getD_eq_of_lt hlen, List.get_eq_getElem] at hc
    refine ⟨s.take i, s[i + 1], s.drop (i + 2), ?_, ?_, ?_, hc⟩
    · conv_lhs => rw [← List.take_append_drop i s]
      congr 1
      rw [List.drop_eq_getElem_cons hilen, List.drop_eq_getElem_cons hlen, hdot]
    · have hlt : (s.take i).length = i := by simp [List.length_take]; omega
      intro hnil
      rw [hnil] at hlt
      simp at hlt
      omega
    · intro c hcmem
      obtain ⟨k, hk, hck⟩ := List.mem_iff_getElem.mp hcmem
      have hki : k < i := by
        have := List.length_take i s
        omega
      have hks : k < s.length := Nat.lt_trans hki hilen
      have h₁ : (s.take i)[k]? = s[k]? := List.getElem?_take_of_lt hki
      rw [List.getElem?_eq_getElem hk, List.getElem?_eq_getElem hks] at h₁
      have hns := hall k hki
      rw [getD_eq_of_lt hks, List.get_eq_getElem] at hns
      rw [← hck, Option.some.inj h₁]
      exact hns
  · rintro ⟨a, c₀, rest, heq, hane, ha, hc⟩
    subst heq
    have hlen : (a ++ '.' :: c₀ :: rest).length = a.length + (rest.length + 2) := by
      simp
    refine ⟨a.length, List.mem_range.mpr (by omega), ?_⟩
    simp only [Bool.and_eq_true, decide_eq_true_eq, beq_iff_eq,
      List.all_eq_true, Bool.not_eq_true', List.mem_range]
    refine ⟨⟨⟨⟨List.length_pos.mpr hane, ?_⟩, by omega⟩, ?_⟩, ?_⟩
    · rw [List.getD_eq_getElem?_getD,
        List.getElem?_append_right (Nat.le_refl a.length), Nat.sub_self]
      rfl
    · intro k hk
      rw [List.getD_eq_getElem?_getD, List.getElem?_append_left hk,
        List.getElem?_eq_getElem hk]
      exact ha _ (List.getElem_mem hk)
    · rw [List.getD_eq_getElem?_getD,
        List.getElem?_append_right (by omega : a.length ≤ a.length + 1)]
      have h1 : a.length + 1 - a.length = 1 := by omega
      rw [h1]
      simpa using hc

/-- `re.match(r"^[^\s]+\.[^\s]+\.[^\s]+", s)` succeeds exactly when `s`
has a prefix of the form ⟨nonspace⁺ `.` nonspace⁺ `.` nonspace⟩. -/
theorem fqtnRegexMatch_iff (s : PyStr) :
    fqtnRegexMatch s = true ↔
    ∃ (a b : PyStr) (c₀ : Char) (rest : PyStr),
      s = a ++ '.' :: (b ++ '.' :: c₀ :: rest) ∧ a ≠ [] ∧ b ≠ [] ∧
      (∀ c ∈ a, isPySpace c = false) ∧ (∀ c ∈ b, isPySpace c = false) ∧
      isPySpace c₀ = false := by
  unfold fqtnRegexMatch
  rw [List.any_eq_true]
  constructor
  · rintro ⟨i, hmemi, hcond⟩
    rw [List.any_eq_true] at hcond
    obtain ⟨j, hmemj, hcond⟩ := hcond
    have hilen : i < s.length := List.mem_range.mp hmemi
    have hjlen' : j < s.length := List.mem_range.mp hmemj
    simp only [Bool.and_eq_true, decide_eq_true_eq, beq_iff_eq,
      List.all_eq_true, Bool.not_eq_true', List.mem_range] at hcond
    obtain ⟨⟨⟨⟨⟨⟨⟨hi, hij⟩, hdi⟩, hdj⟩, hjlen⟩, halla⟩, hallb⟩, hc⟩ := hcond
    rw [getD_eq_of_lt hilen, List.get_eq_getElem] at hdi
    rw [getD_eq_of_lt hjlen', List.get_eq_getElem] at hdj
    rw [getD_eq_of_lt hjlen, List.get_eq_getElem] at hc
    refine ⟨s.take i, (s.drop (i + 1)).take (j - i - 1), s[j + 1], s.drop (j + 2),
      ?_, ?_, ?_, ?_, ?_, hc⟩
    · conv_lhs => rw [← List.take_append_drop i s]
      congr 1
      rw [List.drop_eq_getElem_cons hilen, hdi]
      congr 1
      conv_lhs => rw [← List.take_append_drop (j - i - 1) (s.drop (i + 1))]
      congr 1
      rw [List.drop_drop]
      have hj : i + 1 + (j - i - 1) = j := by omega
      rw [hj, List.drop_eq_getElem_cons hjlen', hdj,
        List.drop_eq_getElem_cons hjlen]
    · have hlt : (s.take i).length = i := by simp [List.length_take]; omega
      intro hnil
      rw [hnil] at hlt
      simp at hlt
      omega
    · have hlt : ((s.drop (i + 1)).take (j - i - 1)).length = j - i - 1 := by
        simp [List.length_take, List.length_drop]
        omega
      intro hnil
      rw [hnil] at hlt
      simp at hlt
      omega
    · intro c hcmem
      obtain ⟨k, hk, hck⟩ := List.mem_iff_getElem.mp hcmem
      have hki : k < i := by
        have := List.length_take i s
        omega
      have hks : k < s.length := Nat.lt_trans hki hilen
      have h₁ : (s.take i)[k]? = s[k]? := List.getElem?_take_of_lt hki
      rw [List.getElem?_eq_getElem hk, List.getElem?_eq_getElem hks] at h₁
      have hns := halla k hki
      rw [getD_eq_of_lt hks, List.get_eq_getElem] at hns
      rw [← hck, Option.some.inj h₁]
      exact hns
    · intro c hcmem
      obtain ⟨k, hk, hck⟩ := List.mem_iff_getElem.mp hcmem
      have hkb : k < j - i - 1 := by
        have := List.length_take (j - i - 1) (s.drop (i + 1))
        omega
      have hks : i + 1 + k < s.length := by omega
      have h₁ : ((s.drop (i + 1)).take (j - i - 1))[k]? = (s.drop (i + 1))[k]? :=
        List.getElem?_take_of_lt hkb
      rw [List.getElem?_drop, List.getElem?_eq_getElem hk,
        List.getElem?_eq_getElem hks] at h₁
      have hns := hallb k hkb
      rw [getD_eq_of_lt hks, List.get_eq_getElem] at hns
      rw [← hck, Option.some.inj h₁]
      exact hns
  · rintro ⟨a, b, c₀, rest, heq, hane, hbne, ha, hb, hc⟩
    subst heq
    have hlen : (a ++ '.' :: (b ++ '.' :: c₀ :: rest)).length =
        a.length + b.length + rest.length + 3 := by
      simp
      omega
    have hb0 : 0 < b.length := List.length_pos.mpr hbne
    refine ⟨a.length, List.mem_range.mpr (by omega), ?_⟩
    rw [List.any_eq_true]
    refine ⟨a.length + 1 + b.length, List.mem_range.mpr (by omega), ?_⟩
    simp only [Bool.and_eq_true, decide_eq_true_eq, beq_iff_eq,
      List.all_eq_true, Bool.not_eq_true', List.mem_range]
    have hmid : ∀ n : Nat, (a ++ '.' :: (b ++ '.' :: c₀ :: rest)).getD (a.length + 1 + n) ' ' =
        (b ++ '.' :: c₀ :: rest).getD n ' ' := by
      intro n
      rw [List.getD_eq_getElem?_getD,
        List.getElem?_append_right (by omega : a.length ≤ a.length + 1 + n)]
      have h1 : a.length + 1 + n - a.length = n + 1 := by omega
      rw [h1, List.getElem?_cons_succ, List.getD_eq_getElem?_getD]
    refine ⟨⟨⟨⟨⟨⟨⟨List.length_pos.mpr hane, by omega⟩, ?_⟩, ?_⟩, by omega⟩, ?_⟩, ?_⟩, ?_⟩
    · rw [List.getD_eq_getElem?_getD,
        List.getElem?_append_right (Nat.le_refl a.length), Nat.sub_self]
      simp
    · rw [hmid b.length, List.getD_eq_getElem?_getD,
        List.getElem?_append_right (Nat.le_refl b.length), Nat.sub_self]
      simp
    · intro k hk
      rw [List.getD_eq_getElem?_getD, List.getElem?_append_left hk,
        List.getElem?_eq_getElem hk]
      exact ha _ (List.getElem_mem hk)
    · intro k hk
      have hkb : k < b.length := by omega
      rw [show a.length + 1 + k = a.length + 1 + k from rfl, hmid k,
        List.getD_eq_getElem?_getD, List.getElem?_append_left hkb,
        List.getElem?_eq_getElem hkb]
      exact hb _ (List.getElem_mem hkb)
    · rw [show a.length + 1 + b.length + 1 = a.length + 1 + (b.length + 1) from by omega,
        hmid (b.length + 1), List.getD_eq_getElem?_getD,
        List.getElem?_append_right (by omega : b.length ≤ b.length + 1)]
      have h1 : b.length + 1 - b.length = 1 := by omega
      rw [h1, List.getElem?_cons_succ]
      simpa using hc

/-- C6 counterexample: strict identifier validation is a prefix regex
match, so `validate_fqtn("A.B.C.D")` — an input with three dot
separators — is accepted, and strict `parse_fqtn` then returns a
four-part tuple rather than failing with a malformed-identifier error. -/
theorem claim_C6_counterexample_three_dots_accepted :
    validate_fqtn (pyStr "A.B.C.D") = .ok (pyStr "A.B.C.D") ∧
    countDots (pyStr "A.B.C.D") = 3 ∧
    parse_fqtn_strict (pyStr "A.B.C.D") =
      .ok [pyStr "A", pyStr "B", pyStr "C", pyStr "D"] := by
  refine ⟨?_, by decide, ?_⟩
  · simp [validate_fqtn, show fqtnRegexMatch (pyStr "A.B.C.D") = true from by decide]
  · rw [parse_fqtn_strict, validate_fqtn,
      if_pos (show fqtnRegexMatch (pyStr "A.B.C.D") = true from by decide)]
    rfl

/-- C6 amended: strict validation matches an **unanchored prefix** regex.
`validate_fqtn` accepts exactly the strings with a prefix
⟨nonspace⁺ `.` nonspace⁺ `.` nonspace⟩ and `validate_namespace` exactly
those with a prefix ⟨nonspace⁺ `.` nonspace⟩ — so inputs with three or
more dots (or trailing garbage after the matched prefix) are also
accepted, and strict parsing then returns one part per dot-separated
segment, possibly more than the dialect's count.  `parse_namespace("D.S")`
returns `("D", "S")` and `parse_namespace("D")` fails with the
malformed-identifier `ValueError`. -/
theorem claim_C6_amended_prefix_regex_validation :
    (∀ s : PyStr, validate_fqtn s = .ok s ↔
      ∃ (a b : PyStr) (c₀ : Char) (rest : PyStr),
        s = a ++ '.' :: (b ++ '.' :: c₀ :: rest) ∧ a ≠ [] ∧ b ≠ [] ∧
        (∀ c ∈ a, isPySpace c = false) ∧ (∀ c ∈ b, isPySpace c = false) ∧
        isPySpace c₀ = false) ∧
    (∀ s : PyStr, validate_namespace s = .ok s ↔
      ∃ (a : PyStr) (c₀ : Char) (rest : PyStr),
        s = a ++ '.' :: c₀ :: rest ∧ a ≠ [] ∧
        (∀ c ∈ a, isPySpace c = false) ∧ isPySpace c₀ = false) ∧
    parse_namespace_strict (pyStr "D.S") = .ok [pyStr "D", pyStr "S"] ∧
    parse_namespace_strict (pyStr "D") =
      .error (.valueError (pyStr "D is not a well-formed namespace")) ∧
    parse_fqtn_strict (pyStr "A.B.C.D") =
      .ok [pyStr "A", pyStr "B", pyStr "C", pyStr "D"] := by
  refine ⟨?_, ?_, ?_, ?_, ?_⟩
  · intro s
    rw [← fqtnRegexMatch_iff]
    unfold validate_fqtn
    cases h : fqtnRegexMatch s <;> simp [h]
  · intro s
    rw [← namespaceRegexMatch_iff]
    unfold validate_namespace
    cases h : namespaceRegexMatch s <;> simp [h]
  · rw [parse_namespace_strict, validate_namespace,
      if_pos (show namespaceRegexMatch (pyStr "D.S") = true from by decide)]
    rfl
  · rw [parse_namespace_strict, validate_namespace,
      if_neg (show ¬ namespaceRegexMatch (pyStr "D") = true from by decide)]
    rfl
  · rw [parse_fqtn_strict, validate_fqtn,
      if_pos (show fqtnRegexMatch (pyStr "A.B.C.D") = true from by decide)]
    rfl

/-- A two-transform chain used to witness the multi-transform case of the
CTE chain structure theorem. -/
def witnessChain : List Transform :=
  [⟨pyStr "t1", [], pyStr "DB.S", pyStr "A1", pyStr "SRC"⟩,
   ⟨pyStr "t2", [], pyStr "DB.S", pyStr "A2", pyStr "A1"⟩]

/-- A renderer stub producing a fixed fragment, used by the witness. -/
def renderConst : Render := fun _ _ => pyStr "SELECT 1"

/-- Witness for C1's multi-transform part, at a concrete two-transform
chain and a stub renderer. -/
theorem claim_C1_assemble_cte_chain_select_structure_witness :
    ∃ sqls : List PyStr, sqls.length = witnessChain.length ∧
      assemble_cte_chain renderConst witnessChain none =
        pyStr "WITH " ++
          joinCtes (List.zipWith cteStr witnessChain.dropLast sqls.dropLast) ++
          collapseCte (sqls.getLastD []) ∧
      (List.zipWith cteStr witnessChain.dropLast sqls.dropLast).length =
        witnessChain.length - 1 ∧
      leadsWith (pyStr "WITH") (assemble_cte_chain renderConst witnessChain none) = true :=
  claim_C1_assemble_cte_chain_select_structure.2 renderConst witnessChain (by decide)

/-- Witness instantiating the `cleanse_name` idempotence theorem at a
concrete input. -/
theorem claim_C4_cleanse_name_idempotent_witness :
    (cleanse_name (pyStr "My Col-1")).bind cleanse_name =
      cleanse_name (pyStr "My Col-1") :=
  claim_C4_cleanse_name_idempotent (pyStr "My Col-1")

/-- Witness instantiating the view-chain structure theorem at a concrete
two-transform chain and stub renderer. -/
theorem claim_C8_assemble_view_chain_one_view_per_transform_witness :
    ∃ sqls : List PyStr, sqls.length = witnessChain.length ∧
      assemble_view_chain renderConst witnessChain =
        joinViews (List.zipWith viewStr witnessChain sqls) ∧
      (List.zipWith viewStr witnessChain sqls).length = witnessChain.length :=
  claim_C8_assemble_view_chain_one_view_per_transform renderConst witnessChain

/-- Witness instantiating the `is_scary_sql` characterization at a
concrete SQL string. -/
theorem claim_C10_is_scary_sql_characterization_witness :
    is_scary_sql (pyStr "DROP TABLE x") = true ↔
      ∃ w ∈ SQL_INJECTION_KEYWORDS, ∃ pre post,
        pyUpper (pyStr "DROP TABLE x") = pre ++ w ++ post :=
  claim_C10_is_scary_sql_characterization.1 (pyStr "DROP TABLE x")

/-- Witness instantiating the amended strict-validation theorem at a
concrete identifier. -/
theorem claim_C6_amended_prefix_regex_validation_witness :
    validate_fqtn (pyStr "A.B.C") = .ok (pyStr "A.B.C") ↔
      ∃ (a b : PyStr) (c₀ : Char) (rest : PyStr),
        pyStr "A.B.C" = a ++ '.' :: (b ++ '.' :: c₀ :: rest) ∧ a ≠ [] ∧ b ≠ [] ∧
        (∀ c ∈ a, isPySpace c = false) ∧ (∀ c ∈ b, isPySpace c = false) ∧
        isPySpace c₀ = false :=
  claim_C6_amended_prefix_regex_validation.1 (pyStr "A.B.C")

end RasgoQL
